import Mathlib

/-!
Verification of the voice-assistant session controller in `src/App.tsx`.

The component is a single React function `App` with three boolean state
flags (`isRecording`, `isPlaying`, `isProcessing`), an optional `error`
string and a mutable buffer of audio chunks.  We embed:

  * the two API clients `convertSpeechToText` and `getGeminiResponse` as
    total functions from a model of the remote HTTP response to
    `Except String String` (a thrown JS exception is `.error`);
  * the event-driven controller as a labelled transition system.  The
    browser event loop is single threaded and every handler runs
    atomically between `await` points, so the states of the system are
    the suspension points of the handlers and the events are the UI
    click, the `MediaRecorder` callbacks, the resolution of the two
    awaited remote calls, and the `SpeechSynthesisUtterance` callbacks.
    `stepCalls` also records the outward calls (start/stop capture,
    the two HTTP requests, speak, cancel) each event emits.

The model tracks one in-flight transcription/response pipeline (the
`pipeline` field), which covers every behaviour the claims quantify over.
-/

namespace VoiceChat

/-- The microphone-permission message set by `startRecording` on `getUserMedia` failure. -/
def micErrorMsg : String := "Unable to access microphone. Please check your permissions."

/-- The generic pipeline-failure message set by the `onstop` catch block. -/
def processingErrorMsg : String := "Sorry, there was an error processing your request. Please try again."

/-- The playback-failure message set by `utterance.onerror`. -/
def playbackErrorMsg : String := "Error playing audio response"

/-- The message with which every failure inside `convertSpeechToText` is
rethrown by its catch block. -/
def sttFailureMsg : String := "Failed to convert speech to text"

/-- The message with which every failure inside `getGeminiResponse` is rethrown
by its catch block. -/
def geminiFailureMsg : String := "Failed to get AI response"

/-- The fixed apology text substituted by
`getGeminiResponse` when the candidate text is absent or falsy. -/
def geminiFallback : String := "Sorry, I could not generate a response."

/-! ## Transcription client (`convertSpeechToText`, App.tsx lines 14-60) -/

/-- One element of `results[i].alternatives` in the speech API response;
`transcript` may be absent in the JSON. -/
structure SttAlternative where
  transcript : Option String
deriving DecidableEq, Repr

/-- One element of `results` in the speech API response; the `alternatives`
field may itself be absent. -/
structure SttResult where
  alternatives : Option (List SttAlternative)
deriving DecidableEq, Repr

/-- The remote speech-recognition response as the client observes it:
either a transport-level failure (`fetch` rejection or `!response.ok`),
or a JSON body whose `results` field may be absent. -/
inductive SttResponse where
  | transportError
  | httpOk (results : Option (List SttResult))
deriving DecidableEq, Repr

/-- Embedding of `convertSpeechToText` (App.tsx lines 14-60), applied to the
remote response to the audio payload.  The JS body is one `try` block:
a non-ok status throws; `!data.results || data.results.length === 0` throws;
`data.results[0].alternatives[0].transcript` throws a `TypeError` when
`alternatives` is absent or empty; the or-empty-string default turns an absent
transcript into the empty string.  Every throw is caught by the trailing
`catch` and rethrown as `sttFailureMsg`, so all failure paths collapse to
`.error sttFailureMsg`. -/
def convertSpeechToText : SttResponse → Except String String
  | .transportError => .error sttFailureMsg
  | .httpOk results =>
    match results with
    | Option.none => .error sttFailureMsg
    | some [] => .error sttFailureMsg
    | some (r :: _) =>
      match r.alternatives with
      | Option.none => .error sttFailureMsg
      | some [] => .error sttFailureMsg
      | some (a :: _) =>
        match a.transcript with
        | Option.none => .ok ""
        | some t => .ok t

/-! ## Response client (`getGeminiResponse`, App.tsx lines 61-93) -/

/-- One element of `candidates[i].content.parts`; `text` may be absent. -/
structure GemPart where
  text : Option String
deriving DecidableEq, Repr

/-- `candidates[i].content`; the `parts` field may be absent. -/
structure GemContent where
  parts : Option (List GemPart)
deriving DecidableEq, Repr

/-- One element of `candidates`; the `content` field may be absent. -/
structure GemCandidate where
  content : Option GemContent
deriving DecidableEq, Repr

/-- The remote generative-language response as the client observes it. -/
inductive GemResponse where
  | transportError
  | httpOk (candidates : Option (List GemCandidate))
deriving DecidableEq, Repr

/-- The optional-chaining expression
`data.candidates?.[0]?.content?.parts?.[0]?.text`: absent at any level
yields `none`, never a throw. -/
def firstCandidateText : Option (List GemCandidate) → Option String
  | Option.none => Option.none
  | some [] => Option.none
  | some (c :: _) =>
    match c.content with
    | Option.none => Option.none
    | some ct =>
      match ct.parts with
      | Option.none => Option.none
      | some [] => Option.none
      | some (p :: _) => p.text

/-- Embedding of `getGeminiResponse` (App.tsx lines 61-93).  A transport
failure throws and is rethrown as `geminiFailureMsg`; otherwise
the or-fallback default substitutes `geminiFallback`
for an absent or falsy (empty) candidate text. -/
def getGeminiResponse : GemResponse → Except String String
  | .transportError => .error geminiFailureMsg
  | .httpOk candidates =>
    .ok (match firstCandidateText candidates with
         | Option.none => geminiFallback
         | some t => if t = "" then geminiFallback else t)

/-! ## Session controller state machine -/

/-- Where the (single modelled) stop-triggered pipeline run currently is:
no run pending; `MediaRecorder.stop()` called but `onstop` not yet fired;
`onstop` running, suspended on the `convertSpeechToText` await; suspended
on the `getGeminiResponse` await with the non-empty transcribed text. -/
inductive PipelinePhase where
  | noRun
  | stopPending
  | awaitTranscription
  | awaitGemini (text : String)
deriving DecidableEq, Repr

/-- The React component state plus the mutable refs of `App`:
the three phase flags, the `error` state, the pipeline suspension point
and `audioChunksRef` (chunks abstracted as strings). -/
structure AppState where
  isRecording : Bool
  isPlaying : Bool
  isProcessing : Bool
  error : Option String
  pipeline : PipelinePhase
  audioChunks : List String
deriving DecidableEq, Repr

/-- The state at widget mount: all flags false, no error, no pipeline. -/
def initState : AppState :=
  { isRecording := false, isPlaying := false, isProcessing := false
    error := Option.none, pipeline := PipelinePhase.noRun, audioChunks := [] }

/-- Outward calls the handlers make. -/
inductive Call where
  | startCapture
  | stopCapture
  | sttRequest (payload : String)
  | geminiRequest (text : String)
  | speakText (text : String)
  | cancelSpeech
deriving DecidableEq, Repr

/-- Events driving the controller: the button click (with the outcome of
the awaited `getUserMedia` request when the start branch is taken), a
`dataavailable` callback, the `onstop` callback firing, resolution of the
transcription await, resolution of the response-generation await, and the
utterance `onend` / `onerror` callbacks. -/
inductive Ev where
  | click (micOk : Bool)
  | dataAvailable (frag : String)
  | recorderStopped
  | sttResult (r : SttResponse)
  | geminiResult (r : GemResponse)
  | speechEnd
  | speechError
deriving DecidableEq, Repr

/-- The three branches of `handleButtonClick` (App.tsx lines 172-180). -/
inductive ClickAction where
  | stopSpeakingAct
  | stopRecordingAct
  | startRecordingAct
deriving DecidableEq, Repr

/-- The dispatch of `handleButtonClick`: `if (isPlaying) stopSpeaking();
else if (isRecording) stopRecording(); else startRecording();`. -/
def clickAction (isPlaying isRecording : Bool) : ClickAction :=
  if isPlaying then ClickAction.stopSpeakingAct
  else if isRecording then ClickAction.stopRecordingAct
  else ClickAction.startRecordingAct

/-- One atomic segment of handler execution per event, returning the new
state and the outward calls made.

  * `click`: dispatch per `clickAction`.  `stopSpeaking` cancels synthesis
    and clears `isPlaying`; `stopRecording` (guarded by `isRecording`)
    stops the recorder (queueing `onstop`) and clears `isRecording`;
    `startRecording` awaits `getUserMedia` — on success it resets the
    chunk buffer, clears `error`, starts the recorder and sets
    `isRecording`, on failure it only sets `error := micErrorMsg`.
  * `dataAvailable`: `ondataavailable` pushes the fragment iff its size
    is positive.
  * `recorderStopped`: `onstop` sets `isProcessing := true`, assembles the
    blob from the accumulated chunks and issues the transcription request.
  * `sttResult`: the `convertSpeechToText` await resolves.  A failure, or
    a falsy (empty) transcript, lands in the catch block: `error` is set,
    `isPlaying` cleared, and the `finally` clears `isProcessing`.  A
    non-empty transcript issues the response-generation request.
  * `geminiResult`: a failure lands in the same catch block; success sets
    `isPlaying := true`, speaks the text, and `finally` clears
    `isProcessing`.
  * `speechEnd` / `speechError`: `onend` clears `isPlaying`; `onerror`
    additionally sets `error := playbackErrorMsg`. -/
def stepCalls (s : AppState) : Ev → AppState × List Call
  | .click micOk =>
    match clickAction s.isPlaying s.isRecording with
    | .stopSpeakingAct => ({ s with isPlaying := false }, [Call.cancelSpeech])
    | .stopRecordingAct =>
      ({ s with isRecording := false, pipeline := PipelinePhase.stopPending },
       [Call.stopCapture])
    | .startRecordingAct =>
      if micOk then
        ({ s with audioChunks := [], error := Option.none, isRecording := true },
         [Call.startCapture])
      else
        ({ s with error := some micErrorMsg }, [])
  | .dataAvailable frag =>
    if frag.length > 0 then
      ({ s with audioChunks := s.audioChunks ++ [frag] }, [])
    else (s, [])
  | .recorderStopped =>
    match s.pipeline with
    | .stopPending =>
      ({ s with isProcessing := true, pipeline := PipelinePhase.awaitTranscription },
       [Call.sttRequest (String.join s.audioChunks)])
    | _ => (s, [])
  | .sttResult r =>
    match s.pipeline with
    | .awaitTranscription =>
      match convertSpeechToText r with
      | .error _ =>
        ({ s with error := some processingErrorMsg, isPlaying := false,
                  isProcessing := false, pipeline := PipelinePhase.noRun }, [])
      | .ok text =>
        if text = "" then
          ({ s with error := some processingErrorMsg, isPlaying := false,
                    isProcessing := false, pipeline := PipelinePhase.noRun }, [])
        else
          ({ s with pipeline := PipelinePhase.awaitGemini text },
           [Call.geminiRequest text])
    | _ => (s, [])
  | .geminiResult r =>
    match s.pipeline with
    | .awaitGemini _ =>
      match getGeminiResponse r with
      | .error _ =>
        ({ s with error := some processingErrorMsg, isPlaying := false,
                  isProcessing := false, pipeline := PipelinePhase.noRun }, [])
      | .ok aiResponse =>
        ({ s with isPlaying := true, isProcessing := false,
                  pipeline := PipelinePhase.noRun },
         [Call.speakText aiResponse])
    | _ => (s, [])
  | .speechEnd => ({ s with isPlaying := false }, [])
  | .speechError =>
    ({ s with isPlaying := false, error := some playbackErrorMsg }, [])

/-- The state part of `stepCalls`. -/
def step (s : AppState) (e : Ev) : AppState := (stepCalls s e).1

/-- Run a list of events from a state. -/
def runTrace (s : AppState) (es : List Ev) : AppState := es.foldl step s

/-! ## Reachability and the phase invariant -/

/-- A trigger is delivered only when no pipeline run is in flight, in the
case where it would take the start branch (`isPlaying` and `isRecording`
both false).  The code itself does not enforce this: `handleButtonClick`
never consults `isProcessing`. -/
def triggerSafe (s : AppState) : Prop :=
  s.isPlaying = false → s.isRecording = false →
    (s.pipeline = PipelinePhase.noRun ∧ s.isProcessing = false)

/-- States reachable from `initState` by event sequences in which every
click that would start a recording arrives with no pipeline run in
flight; all completion callbacks are unrestricted. -/
inductive ReachSafe : AppState → Prop where
  | init : ReachSafe initState
  | click (s : AppState) (micOk : Bool) (h : ReachSafe s) (hs : triggerSafe s) :
      ReachSafe (step s (Ev.click micOk))
  | dataAvailable (s : AppState) (frag : String) (h : ReachSafe s) :
      ReachSafe (step s (Ev.dataAvailable frag))
  | recorderStopped (s : AppState) (h : ReachSafe s) :
      ReachSafe (step s Ev.recorderStopped)
  | sttResult (s : AppState) (r : SttResponse) (h : ReachSafe s) :
      ReachSafe (step s (Ev.sttResult r))
  | geminiResult (s : AppState) (r : GemResponse) (h : ReachSafe s) :
      ReachSafe (step s (Ev.geminiResult r))
  | speechEnd (s : AppState) (h : ReachSafe s) : ReachSafe (step s Ev.speechEnd)
  | speechError (s : AppState) (h : ReachSafe s) : ReachSafe (step s Ev.speechError)

/-- At most one of the three phase flags is set. -/
def mutuallyExclusive (s : AppState) : Prop :=
  (s.isRecording && s.isProcessing) = false ∧
  (s.isRecording && s.isPlaying) = false ∧
  (s.isProcessing && s.isPlaying) = false

/-- The inductive invariant tying the pipeline suspension point to the
flags. -/
def phaseInv (s : AppState) : Prop :=
  match s.pipeline with
  | PipelinePhase.noRun =>
      s.isProcessing = false ∧ (s.isRecording && s.isPlaying) = false
  | PipelinePhase.stopPending =>
      s.isRecording = false ∧ s.isPlaying = false ∧ s.isProcessing = false
  | PipelinePhase.awaitTranscription =>
      s.isProcessing = true ∧ s.isRecording = false ∧ s.isPlaying = false
  | PipelinePhase.awaitGemini _ =>
      s.isProcessing = true ∧ s.isRecording = false ∧ s.isPlaying = false

/-! ## Concrete traces and responses used in counterexamples and witnesses -/

/-- A speech response carrying one transcript. -/
def helloSttResponse : SttResponse :=
  SttResponse.httpOk (some [⟨some [⟨some "hello"⟩]⟩])

/-- A speech response whose first transcript is the empty string. -/
def emptySttResponse : SttResponse :=
  SttResponse.httpOk (some [⟨some [⟨some ""⟩]⟩])

/-- A generative response carrying one candidate text. -/
def hiGemResponse : GemResponse :=
  GemResponse.httpOk (some [⟨some ⟨some [⟨some "Hi there"⟩]⟩⟩])

/-- Start a recording, stop it via a second click: `onstop` is queued with
an empty chunk buffer. -/
def sStopPendingEmpty : AppState :=
  runTrace initState [Ev.click true, Ev.click true]

/-- ... and let `onstop` fire: the controller is processing, suspended on
the transcription await, with an empty payload sent. -/
def sAwaitTranscription : AppState :=
  runTrace initState [Ev.click true, Ev.click true, Ev.recorderStopped]

/-- ... and let transcription resolve with a transcript: suspended on the
response-generation await. -/
def sAwaitGemini : AppState :=
  runTrace initState
    [Ev.click true, Ev.click true, Ev.recorderStopped, Ev.sttResult helloSttResponse]

/-- ... and let response generation resolve: speaking, no flags overlap. -/
def sSpeaking : AppState :=
  runTrace initState
    [Ev.click true, Ev.click true, Ev.recorderStopped, Ev.sttResult helloSttResponse,
     Ev.geminiResult hiGemResponse]

/-- The trace refuting the exclusivity claim: the fourth click arrives
while the controller is processing; `handleButtonClick` sees
`isPlaying = false` and `isRecording = false` and takes the start branch. -/
def c1BugPrefix : List Ev := [Ev.click true, Ev.click true, Ev.recorderStopped]

/-- Extending the bug prefix: the mid-processing click starts a second
recording, and the first pipeline then completes into playback, leaving
`isRecording` and `isPlaying` simultaneously true. -/
def overlapTrace : List Ev :=
  [Ev.click true, Ev.click true, Ev.recorderStopped, Ev.click true,
   Ev.sttResult helloSttResponse, Ev.geminiResult hiGemResponse]

theorem phaseInv_step (s : AppState) (e : Ev) (hinv : phaseInv s)
    (hclick : ∀ micOk, e = Ev.click micOk → triggerSafe s) :
    phaseInv (step s e) := by
  obtain ⟨rec, play, proc, err, pl, chunks⟩ := s
  cases e with
  | click micOk =>
    have hs := hclick micOk rfl
    cases play <;> cases rec <;> cases micOk <;> cases pl <;>
      simp_all [phaseInv, step, stepCalls, clickAction, triggerSafe]
  | dataAvailable frag =>
    by_cases h : frag.length > 0 <;> cases pl <;>
      simp_all [phaseInv, step, stepCalls]
  | recorderStopped =>
    cases pl <;> simp_all [phaseInv, step, stepCalls]
  | sttResult r =>
    cases pl with
    | awaitTranscription =>
      rcases hconv : convertSpeechToText r with e' | t
      · simp_all [phaseInv, step, stepCalls]
      · by_cases ht : t = "" <;> simp_all [phaseInv, step, stepCalls]
    | noRun => simp_all [phaseInv, step, stepCalls]
    | stopPending => simp_all [phaseInv, step, stepCalls]
    | awaitGemini t => simp_all [phaseInv, step, stepCalls]
  | geminiResult r =>
    cases pl with
    | awaitGemini t =>
      rcases hg : getGeminiResponse r with e' | t'
      · simp_all [phaseInv, step, stepCalls]
      · simp_all [phaseInv, step, stepCalls]
    | noRun => simp_all [phaseInv, step, stepCalls]
    | stopPending => simp_all [phaseInv, step, stepCalls]
    | awaitTranscription => simp_all [phaseInv, step, stepCalls]
  | speechEnd =>
    cases pl <;> simp_all [phaseInv, step, stepCalls]
  | speechError =>
    cases pl <;> simp_all [phaseInv, step, stepCalls]

theorem phaseInv_of_reachSafe (s : AppState) (h : ReachSafe s) : phaseInv s := by
  induction h with
  | init => simp [phaseInv, initState]
  | click s micOk h hs ih =>
    exact phaseInv_step s (Ev.click micOk) ih (fun _ _ => hs)
  | dataAvailable s frag h ih =>
    exact phaseInv_step s (Ev.dataAvailable frag) ih (fun _ h' => Ev.noConfusion h')
  | recorderStopped s h ih =>
    exact phaseInv_step s Ev.recorderStopped ih (fun _ h' => Ev.noConfusion h')
  | sttResult s r h ih =>
    exact phaseInv_step s (Ev.sttResult r) ih (fun _ h' => Ev.noConfusion h')
  | geminiResult s r h ih =>
    exact phaseInv_step s (Ev.geminiResult r) ih (fun _ h' => Ev.noConfusion h')
  | speechEnd s h ih =>
    exact phaseInv_step s Ev.speechEnd ih (fun _ h' => Ev.noConfusion h')
  | speechError s h ih =>
    exact phaseInv_step s Ev.speechError ih (fun _ h' => Ev.noConfusion h')

theorem mutuallyExclusive_of_phaseInv (s : AppState) (h : phaseInv s) :
    mutuallyExclusive s := by
  obtain ⟨rec, play, proc, err, pl, chunks⟩ := s
  cases pl <;> cases rec <;> cases play <;> cases proc <;>
    simp_all [phaseInv, mutuallyExclusive]

/-- A successful return of the response client is never the empty string:
the extracted candidate text is substituted by the non-empty fallback when
empty or absent. -/
theorem getGeminiResponse_ok_ne_empty (r : GemResponse) (t : String)
    (h : getGeminiResponse r = Except.ok t) : t ≠ "" := by
  cases r with
  | transportError => simp [getGeminiResponse] at h
  | httpOk cs =>
    rcases hf : firstCandidateText cs with _ | t'
    · simp [getGeminiResponse, hf] at h
      subst h
      decide
    · simp [getGeminiResponse, hf] at h
      by_cases ht : t' = ""
      · rw [if_pos ht] at h
        subst h
        decide
      · rw [if_neg ht] at h
        subst h
        exact ht

/-- A response-generation request is only ever emitted from the
transcription suspension point, and only with a non-empty text. -/
theorem geminiRequest_mem (s : AppState) (e : Ev) (t : String)
    (h : Call.geminiRequest t ∈ (stepCalls s e).2) :
    s.pipeline = PipelinePhase.awaitTranscription ∧ t ≠ "" := by
  obtain ⟨rec, play, proc, err, pl, chunks⟩ := s
  cases e with
  | click micOk =>
    cases play <;> cases rec <;> cases micOk <;>
      simp_all [stepCalls, clickAction]
  | dataAvailable frag =>
    by_cases hf : frag.length > 0 <;> simp_all [stepCalls]
  | recorderStopped =>
    cases pl <;> simp_all [stepCalls]
  | sttResult r =>
    cases pl with
    | awaitTranscription =>
      rcases hconv : convertSpeechToText r with e' | t'
      · simp_all [stepCalls]
      · by_cases ht : t' = "" <;> simp_all [stepCalls]
    | noRun => simp_all [stepCalls]
    | stopPending => simp_all [stepCalls]
    | awaitGemini t'' => simp_all [stepCalls]
  | geminiResult r =>
    cases pl with
    | awaitGemini t'' =>
      rcases hg : getGeminiResponse r with e' | t' <;> simp_all [stepCalls]
    | noRun => simp_all [stepCalls]
    | stopPending => simp_all [stepCalls]
    | awaitTranscription => simp_all [stepCalls]
  | speechEnd => simp_all [stepCalls]
  | speechError => simp_all [stepCalls]

/-- The speech-output adapter is only ever invoked with a non-empty text:
the only `speakText` emission passes the successful return of
`getGeminiResponse`. -/
theorem speakText_mem (s : AppState) (e : Ev) (t : String)
    (h : Call.speakText t ∈ (stepCalls s e).2) : t ≠ "" := by
  obtain ⟨rec, play, proc, err, pl, chunks⟩ := s
  cases e with
  | click micOk =>
    cases play <;> cases rec <;> cases micOk <;>
      simp_all [stepCalls, clickAction]
  | dataAvailable frag =>
    by_cases hf : frag.length > 0 <;> simp_all [stepCalls]
  | recorderStopped =>
    cases pl <;> simp_all [stepCalls]
  | sttResult r =>
    cases pl with
    | awaitTranscription =>
      rcases hconv : convertSpeechToText r with e' | t'
      · simp_all [stepCalls]
      · by_cases ht : t' = "" <;> simp_all [stepCalls]
    | noRun => simp_all [stepCalls]
    | stopPending => simp_all [stepCalls]
    | awaitGemini t'' => simp_all [stepCalls]
  | geminiResult r =>
    cases pl with
    | awaitGemini t'' =>
      rcases hg : getGeminiResponse r with e' | t'
      · simp_all [stepCalls]
      · have hne := getGeminiResponse_ok_ne_empty r t' hg
        simp_all [stepCalls]
    | noRun => simp_all [stepCalls]
    | stopPending => simp_all [stepCalls]
    | awaitTranscription => simp_all [stepCalls]
  | speechEnd => simp_all [stepCalls]
  | speechError => simp_all [stepCalls]

/-! ## Claims -/

/-- C1, counterexample: after start, stop, and `onstop` firing, the
controller is in Processing, yet a trigger action takes the start branch
(`handleButtonClick` never consults `isProcessing`), emits `startCapture`
and leaves the recording and processing flags simultaneously true: a
Processing-to-Recording transition is reachable. -/
theorem c1_trigger_during_processing_starts_recording :
    (runTrace initState c1BugPrefix).isProcessing = true ∧
    (runTrace initState c1BugPrefix).isRecording = false ∧
    (runTrace initState c1BugPrefix).isPlaying = false ∧
    (stepCalls (runTrace initState c1BugPrefix) (Ev.click true)).2 = [Call.startCapture] ∧
    (step (runTrace initState c1BugPrefix) (Ev.click true)).isRecording = true ∧
    (step (runTrace initState c1BugPrefix) (Ev.click true)).isProcessing = true := by
  decide

/-- C1, amended: along every trace in which a trigger action that would
take the start branch is only delivered while no pipeline run is in
flight, at most one of the recording, processing and speaking flags is
true at any instant. -/
theorem c1_mutual_exclusion_on_trigger_safe_traces (s : AppState)
    (h : ReachSafe s) : mutuallyExclusive s :=
  mutuallyExclusive_of_phaseInv s (phaseInv_of_reachSafe s h)

theorem c1_mutual_exclusion_witness :
    mutuallyExclusive (step initState (Ev.click true)) :=
  c1_mutual_exclusion_on_trigger_safe_traces _
    (ReachSafe.click initState true ReachSafe.init (fun _ _ => ⟨rfl, rfl⟩))

/-- C2: the trigger action dispatches in strict priority order:
cancel playback if the speaking flag is set, else stop the recording if
the recording flag is set, else start a recording. -/
theorem c2_trigger_priority (s : AppState) (micOk : Bool) :
    (s.isPlaying = true →
      clickAction s.isPlaying s.isRecording = ClickAction.stopSpeakingAct ∧
      (stepCalls s (Ev.click micOk)).2 = [Call.cancelSpeech]) ∧
    (s.isPlaying = false → s.isRecording = true →
      clickAction s.isPlaying s.isRecording = ClickAction.stopRecordingAct ∧
      (stepCalls s (Ev.click micOk)).2 = [Call.stopCapture]) ∧
    (s.isPlaying = false → s.isRecording = false →
      clickAction s.isPlaying s.isRecording = ClickAction.startRecordingAct ∧
      (micOk = true → (stepCalls s (Ev.click micOk)).2 = [Call.startCapture])) := by
  obtain ⟨rec, play, proc, err, pl, chunks⟩ := s
  cases play <;> cases rec <;> cases micOk <;>
    simp [clickAction, stepCalls]

theorem c2_trigger_priority_witness :
    clickAction initState.isPlaying initState.isRecording =
      ClickAction.startRecordingAct ∧
    (stepCalls initState (Ev.click true)).2 = [Call.startCapture] := by
  have h := (c2_trigger_priority initState true).2.2 rfl rfl
  exact ⟨h.1, h.2 rfl⟩

/-- C3: an absent or empty result set makes the transcription client fail
(it does not return, in particular not an empty string); a non-empty
result set whose first result carries a first alternative with a
transcript makes it return exactly that transcript. -/
theorem c3_transcription_first_alternative :
    (convertSpeechToText (SttResponse.httpOk Option.none) =
       Except.error sttFailureMsg ∧
     convertSpeechToText (SttResponse.httpOk (some [])) =
       Except.error sttFailureMsg) ∧
    (∀ (r : SttResult) (rs : List SttResult) (a : SttAlternative)
       (as : List SttAlternative) (t : String),
       r.alternatives = some (a :: as) → a.transcript = some t →
       convertSpeechToText (SttResponse.httpOk (some (r :: rs))) = Except.ok t) := by
  refine ⟨⟨rfl, rfl⟩, ?_⟩
  intro r rs a as t ha ht
  simp [convertSpeechToText, ha, ht]

theorem c3_transcription_witness :
    convertSpeechToText helloSttResponse = Except.ok "hello" :=
  c3_transcription_first_alternative.2 ⟨some [⟨some "hello"⟩]⟩ [] ⟨some "hello"⟩ []
    "hello" rfl rfl

/-- C4: with a successful transport status, an absent or falsy first
candidate text makes the response client return the fixed fallback
apology, and the resolution of the response await then sets the speaking
flag, clears the processing flag, hands the fallback to the speech
output, and leaves the error unchanged (no error recorded). -/
theorem c4_gemini_fallback (s : AppState) (t0 : String)
    (cs : Option (List GemCandidate))
    (hp : s.pipeline = PipelinePhase.awaitGemini t0)
    (habs : firstCandidateText cs = Option.none ∨ firstCandidateText cs = some "") :
    getGeminiResponse (GemResponse.httpOk cs) = Except.ok geminiFallback ∧
    stepCalls s (Ev.geminiResult (GemResponse.httpOk cs)) =
      ({ s with isPlaying := true, isProcessing := false,
                pipeline := PipelinePhase.noRun },
       [Call.speakText geminiFallback]) := by
  have hg : getGeminiResponse (GemResponse.httpOk cs) = Except.ok geminiFallback := by
    rcases habs with h | h <;> simp [getGeminiResponse, h]
  refine ⟨hg, ?_⟩
  simp [stepCalls, hp, hg]

theorem c4_gemini_fallback_witness :
    getGeminiResponse (GemResponse.httpOk Option.none) =
      Except.ok geminiFallback ∧
    stepCalls sAwaitGemini (Ev.geminiResult (GemResponse.httpOk Option.none)) =
      ({ sAwaitGemini with isPlaying := true,
                             isProcessing := false,
                             pipeline := PipelinePhase.noRun },
       [Call.speakText geminiFallback]) :=
  c4_gemini_fallback sAwaitGemini "hello" Option.none (by decide) (Or.inl rfl)

/-- C5, counterexample: when the mid-processing click has started a second
recording, a transcription failure still sets the error and clears the
processing flag, but the session is left in Recording, not Idle. -/
theorem c5_failure_not_idle_counterexample :
    convertSpeechToText (SttResponse.httpOk Option.none) =
      Except.error sttFailureMsg ∧
    (step (runTrace initState (c1BugPrefix ++ [Ev.click true]))
        (Ev.sttResult (SttResponse.httpOk Option.none))).error =
      some processingErrorMsg ∧
    (step (runTrace initState (c1BugPrefix ++ [Ev.click true]))
        (Ev.sttResult (SttResponse.httpOk Option.none))).isRecording = true :=
  ⟨rfl, by decide, by decide⟩

/-- C5, amended: when the transcription await resolves with a failure
(the empty-result case included) and no second recording has been started
in the meantime, the controller ends with all three flags false (Idle),
the error message set, the run closed without any response-generation
request being emitted, and a further trigger takes the start branch;
moreover no state whose pipeline is closed can ever emit a
response-generation request. -/
theorem c5_transcription_failure_returns_idle (s : AppState) (r : SttResponse)
    (msg : String)
    (hp : s.pipeline = PipelinePhase.awaitTranscription)
    (hrec : s.isRecording = false)
    (hfail : convertSpeechToText r = Except.error msg) :
    (stepCalls s (Ev.sttResult r)).1 =
      { s with error := some processingErrorMsg, isPlaying := false,
               isProcessing := false, pipeline := PipelinePhase.noRun } ∧
    (stepCalls s (Ev.sttResult r)).2 = [] ∧
    (stepCalls s (Ev.sttResult r)).1.isRecording = false ∧
    (stepCalls s (Ev.sttResult r)).1.isPlaying = false ∧
    (stepCalls s (Ev.sttResult r)).1.isProcessing = false ∧
    clickAction (stepCalls s (Ev.sttResult r)).1.isPlaying
      (stepCalls s (Ev.sttResult r)).1.isRecording =
      ClickAction.startRecordingAct ∧
    (∀ (s₂ : AppState) (e : Ev) (t : String),
       s₂.pipeline = PipelinePhase.noRun →
       Call.geminiRequest t ∉ (stepCalls s₂ e).2) := by
  have hstep : stepCalls s (Ev.sttResult r) =
      ({ s with error := some processingErrorMsg, isPlaying := false,
                isProcessing := false, pipeline := PipelinePhase.noRun }, []) := by
    simp [stepCalls, hp, hfail]
  refine ⟨by rw [hstep], by rw [hstep], ?_, ?_, ?_, ?_, ?_⟩
  · rw [hstep]; exact hrec
  · rw [hstep]
  · rw [hstep]
  · rw [hstep]; simp [clickAction, hrec]
  · intro s₂ e t hnp hmem
    have hcontra := (geminiRequest_mem s₂ e t hmem).1
    rw [hnp] at hcontra
    exact PipelinePhase.noConfusion hcontra

theorem c5_transcription_failure_witness :
    (stepCalls sAwaitTranscription (Ev.sttResult (SttResponse.httpOk (some [])))).1 =
      { sAwaitTranscription with error := some processingErrorMsg,
                                   isPlaying := false,
                                   isProcessing := false,
                                   pipeline := PipelinePhase.noRun } ∧
    (stepCalls sAwaitTranscription (Ev.sttResult (SttResponse.httpOk (some [])))).2 =
      [] := by
  have h := c5_transcription_failure_returns_idle sAwaitTranscription
    (SttResponse.httpOk (some [])) sttFailureMsg (by decide) (by decide) rfl
  exact ⟨h.1, h.2.1⟩

/-- C6: a trigger taking the start branch: on microphone failure only the
error message changes (the session keeps its flags, in particular stays
Idle and never sets the recording flag); on microphone success the chunk
buffer is reset, the previous error cleared, the capture source started
and the recording flag set. -/
theorem c6_start_recording (s : AppState)
    (hplay : s.isPlaying = false) (hrec : s.isRecording = false) :
    stepCalls s (Ev.click false) = ({ s with error := some micErrorMsg }, []) ∧
    stepCalls s (Ev.click true) =
      ({ s with audioChunks := [], error := Option.none, isRecording := true },
       [Call.startCapture]) := by
  simp [stepCalls, clickAction, hplay, hrec]

theorem c6_start_recording_witness :
    stepCalls initState (Ev.click false) =
      ({ initState with error := some micErrorMsg }, []) ∧
    stepCalls initState (Ev.click true) =
      ({ initState with audioChunks := [],
                          error := Option.none,
                          isRecording := true }, [Call.startCapture]) :=
  c6_start_recording initState rfl rfl

/-- C7, counterexample: from the reachable state in which a mid-processing
trigger started a second recording and the first pipeline then completed
into playback, a trigger while speaking clears the speaking flag but
leaves the session in Recording — not Idle — so the claimed return to
Idle does not hold for every prior state. -/
theorem c7_cancel_not_idle_counterexample :
    (runTrace initState overlapTrace).isPlaying = true ∧
    (runTrace initState overlapTrace).isRecording = true ∧
    (step (runTrace initState overlapTrace) (Ev.click true)).isPlaying = false ∧
    (step (runTrace initState overlapTrace) (Ev.click true)).isRecording = true := by
  decide

/-- C7, amended: a trigger action delivered while the speaking flag is set
cancels the speech engine, clears the speaking flag, changes nothing
else — in particular it sets no error — and returns the session to Idle
whenever no recording or processing is concurrently in progress. -/
theorem c7_cancel_speaking (s : AppState) (micOk : Bool)
    (hplay : s.isPlaying = true) :
    stepCalls s (Ev.click micOk) =
      ({ s with isPlaying := false }, [Call.cancelSpeech]) ∧
    (stepCalls s (Ev.click micOk)).1.error = s.error ∧
    (s.isRecording = false → s.isProcessing = false →
      (stepCalls s (Ev.click micOk)).1.isRecording = false ∧
      (stepCalls s (Ev.click micOk)).1.isPlaying = false ∧
      (stepCalls s (Ev.click micOk)).1.isProcessing = false) := by
  have hstep : stepCalls s (Ev.click micOk) =
      ({ s with isPlaying := false }, [Call.cancelSpeech]) := by
    simp [stepCalls, clickAction, hplay]
  refine ⟨hstep, by rw [hstep], ?_⟩
  intro hrec hproc
  rw [hstep]
  exact ⟨hrec, rfl, hproc⟩

theorem c7_cancel_speaking_witness :
    stepCalls sSpeaking (Ev.click true) =
      ({ sSpeaking with isPlaying := false }, [Call.cancelSpeech]) ∧
    (stepCalls sSpeaking (Ev.click true)).1.error = sSpeaking.error ∧
    ((stepCalls sSpeaking (Ev.click true)).1.isRecording = false ∧
     (stepCalls sSpeaking (Ev.click true)).1.isPlaying = false ∧
     (stepCalls sSpeaking (Ev.click true)).1.isProcessing = false) := by
  have h := c7_cancel_speaking sSpeaking true (by decide)
  exact ⟨h.1, h.2.1, h.2.2 (by decide) (by decide)⟩

/-- C8: a response-generation request is never emitted with empty text;
and when the transcription await resolves with an empty (falsy)
transcript the run fails — error set, flags cleared, run closed, no
request emitted — before the response client is called. -/
theorem c8_no_empty_gemini_call :
    (∀ (s : AppState) (e : Ev) (t : String),
       Call.geminiRequest t ∈ (stepCalls s e).2 → t ≠ "") ∧
    (∀ (s : AppState) (r : SttResponse),
       s.pipeline = PipelinePhase.awaitTranscription →
       convertSpeechToText r = Except.ok "" →
       stepCalls s (Ev.sttResult r) =
         ({ s with error := some processingErrorMsg, isPlaying := false,
                   isProcessing := false, pipeline := PipelinePhase.noRun }, [])) := by
  constructor
  · intro s e t h
    exact (geminiRequest_mem s e t h).2
  · intro s r hp hconv
    simp [stepCalls, hp, hconv]

theorem c8_no_empty_gemini_call_witness :
    ("hello" ≠ "") ∧
    stepCalls sAwaitTranscription (Ev.sttResult emptySttResponse) =
      ({ sAwaitTranscription with error := some processingErrorMsg,
                                    isPlaying := false,
                                    isProcessing := false,
                                    pipeline := PipelinePhase.noRun }, []) :=
  ⟨c8_no_empty_gemini_call.1 sAwaitTranscription (Ev.sttResult helloSttResponse)
      "hello" (by decide),
   c8_no_empty_gemini_call.2 sAwaitTranscription emptySttResponse (by decide) rfl⟩

/-- C9, counterexample: stopping with zero accumulated fragments does send
the empty payload, but the run does not terminate in the transcription
error path for every remote response: a response carrying a transcript
makes the run proceed to a response-generation request with no error
set. -/
theorem c9_empty_payload_counterexample :
    sAwaitTranscription.audioChunks = [] ∧
    (stepCalls sStopPendingEmpty Ev.recorderStopped).2 = [Call.sttRequest ""] ∧
    (stepCalls sAwaitTranscription (Ev.sttResult helloSttResponse)).2 =
      [Call.geminiRequest "hello"] ∧
    (stepCalls sAwaitTranscription (Ev.sttResult helloSttResponse)).1.error =
      Option.none ∧
    (stepCalls sAwaitTranscription (Ev.sttResult helloSttResponse)).1.pipeline =
      PipelinePhase.awaitGemini "hello" := by
  decide

/-- C9, amended: stopping with zero accumulated fragments still emits the
transcription request with the empty payload and enters Processing; the
handling of the response is total (every response shape is matched, no
crash), every transport-error or empty-or-absent-result response makes
the client fail with the fixed message, and every such failure drives the
run into the error path: error set, processing cleared, run closed. -/
theorem c9_empty_payload_still_transcribes (s : AppState)
    (hp : s.pipeline = PipelinePhase.stopPending)
    (hch : s.audioChunks = []) :
    stepCalls s Ev.recorderStopped =
      ({ s with isProcessing := true,
                pipeline := PipelinePhase.awaitTranscription },
       [Call.sttRequest ""]) ∧
    (∀ r : SttResponse,
       (r = SttResponse.transportError ∨ r = SttResponse.httpOk Option.none ∨
        r = SttResponse.httpOk (some [])) →
       convertSpeechToText r = Except.error sttFailureMsg) ∧
    (∀ (s₂ : AppState) (r : SttResponse) (msg : String),
       s₂.pipeline = PipelinePhase.awaitTranscription →
       convertSpeechToText r = Except.error msg →
       (stepCalls s₂ (Ev.sttResult r)).1.error = some processingErrorMsg ∧
       (stepCalls s₂ (Ev.sttResult r)).1.isProcessing = false ∧
       (stepCalls s₂ (Ev.sttResult r)).1.pipeline = PipelinePhase.noRun ∧
       (stepCalls s₂ (Ev.sttResult r)).2 = []) := by
  refine ⟨by simp [stepCalls, hp, hch, String.join], ?_, ?_⟩
  · intro r hr
    rcases hr with h | h | h <;> subst h <;> rfl
  · intro s₂ r msg hp₂ hfail
    simp [stepCalls, hp₂, hfail]

theorem c9_empty_payload_witness :
    stepCalls sStopPendingEmpty Ev.recorderStopped =
      ({ sStopPendingEmpty with isProcessing := true,
                                  pipeline := PipelinePhase.awaitTranscription },
       [Call.sttRequest ""]) ∧
    convertSpeechToText SttResponse.transportError =
      Except.error sttFailureMsg ∧
    (stepCalls sAwaitTranscription
        (Ev.sttResult SttResponse.transportError)).1.error =
      some processingErrorMsg := by
  have h := c9_empty_payload_still_transcribes sStopPendingEmpty
    (by decide) (by decide)
  exact ⟨h.1, h.2.1 SttResponse.transportError (Or.inl rfl),
    (h.2.2 sAwaitTranscription SttResponse.transportError sttFailureMsg
      (by decide) rfl).1⟩

/-- C10: every successful return of the response client is non-empty
(candidate text is non-empty by the falsy check, and the fallback is a
fixed non-empty string), so the speech output adapter is only ever
invoked with non-empty text. -/
theorem c10_speak_nonempty :
    (∀ (r : GemResponse) (t : String),
       getGeminiResponse r = Except.ok t → t ≠ "") ∧
    (∀ (s : AppState) (e : Ev) (t : String),
       Call.speakText t ∈ (stepCalls s e).2 → t ≠ "") :=
  ⟨getGeminiResponse_ok_ne_empty, speakText_mem⟩

theorem c10_speak_nonempty_witness :
    geminiFallback ≠ "" ∧ "Hi there" ≠ "" :=
  ⟨c10_speak_nonempty.1 (GemResponse.httpOk Option.none) geminiFallback rfl,
   c10_speak_nonempty.2 sAwaitGemini (Ev.geminiResult hiGemResponse) "Hi there"
     (by decide)⟩

end VoiceChat
